import Mathlib

/-!
Shallow embedding of the brightwheel-downloader repository
(`src/processors/__init__.py`, `src/download.py`, `src/database/__init__.py`,
`src/brightwheel/__init__.py`) as executable Lean definitions, followed by
theorems settling the specification claims against them.

Python strings are modelled as Lean `String`, manipulated through structural
helpers over `List Char` so every definition reduces in the kernel.  Python
`None` becomes `Option.none`; Python truthiness of optional strings and
floats is made explicit (`pyTruthyStr`, `pyTruthyQ`).  Exceptions become
`Except PErr`.  The filesystem visible to a processor run is a list of file
paths.  External collaborators (HTTP responses, exiftool exit status, the
pytz timezone localisation) are abstracted into an `Env` record of inputs,
exactly at the boundaries the source code calls into them.
-/

namespace BWDL

/-- Structural model of Python `str.split(sep)` for a one-character
separator: `''.split(c) = ['']`, separators produce empty fields. -/
def splitOnChar (c : Char) : List Char → List (List Char)
  | [] => [[]]
  | x :: xs =>
    let r := splitOnChar c xs
    if x = c then [] :: r
    else
      match r with
      | [] => [[x]]
      | h :: t => (x :: h) :: t

/-- `s.split(c)` on Lean strings. -/
def strSplit (s : String) (c : Char) : List String :=
  (splitOnChar c s.data).map (fun l => String.mk l)

/-- Python `s.endswith(t)`. -/
def strEndsWith (s t : String) : Bool :=
  t.data.isSuffixOf s.data

/-- Prefix test used to model `glob.glob(f'{pat}*')` being non-empty. -/
def strStartsWithStr (s p : String) : Bool :=
  p.data.isPrefixOf s.data

/-- Python `s.replace('-', '')`. -/
def stripHyphens (s : String) : String :=
  String.mk (s.data.filter (fun c => c ≠ '-'))

/-- `os.path.join` for a relative second component (the computed media
filenames always start with a digit, never `/`). -/
def pathJoin (dir name : String) : String :=
  dir ++ "/" ++ name

/-- Zero-padded decimal rendering, modelling `strftime` field padding. -/
def padNum (width n : Nat) : String :=
  let s := Nat.repr n
  String.mk (List.replicate (width - s.length) '0') ++ s

/-- A parsed `datetime` value: the code parses `event_date` with
`'%Y-%m-%dT%H:%M:%S.%f%z'` and only ever formats it back, so the embedding
keeps the parsed components. -/
structure Timestamp where
  year : Nat
  month : Nat
  day : Nat
  hour : Nat
  minute : Nat
  second : Nat
deriving DecidableEq

/-- `datetime.strftime(dt, '%Y%m%d%H%M%SZ')`. -/
def formatYmdHmsZ (t : Timestamp) : String :=
  padNum 4 t.year ++ padNum 2 t.month ++ padNum 2 t.day ++
  padNum 2 t.hour ++ padNum 2 t.minute ++ padNum 2 t.second ++ "Z"

/-- `datetime.strftime(dt, '%Y:%m:%d %H:%M:%S')`. -/
def formatColonDT (t : Timestamp) : String :=
  padNum 4 t.year ++ ":" ++ padNum 2 t.month ++ ":" ++ padNum 2 t.day ++
  " " ++ padNum 2 t.hour ++ ":" ++ padNum 2 t.minute ++ ":" ++ padNum 2 t.second

/-- `tz_str[:3] + ':' + tz_str[3:]` reformatting of a `%z` offset. -/
def reformatOffset (s : String) : String :=
  String.mk (s.data.take 3) ++ ":" ++ String.mk (s.data.drop 3)

/-- Python truthiness of an optional string (`None` and `''` are falsy). -/
def pyTruthyStr : Option String → Bool
  | none => false
  | some s => !(s = "")

/-- Python truthiness of an optional float (`None` and `0.0` are falsy);
coordinates are embedded as rationals, whose sign tests are exact. -/
def pyTruthyQ : Option ℚ → Bool
  | none => false
  | some q => !(q = 0)

/-- `activity['video_info']` contents. -/
structure VideoInfo where
  transcoding_status : String
  downloadable_url : Option String
deriving DecidableEq

/-- `activity['media']` contents. -/
structure MediaField where
  image_url : Option String
deriving DecidableEq

/-- One activity payload as the code reads it (`object_id`, `event_date`
already parsed, `action_type`, optional `media` / `video_info` blocks;
a Python `None` or empty dict block is `none`). -/
structure Activity where
  object_id : String
  event_date : Timestamp
  action_type : String
  media : Option MediaField
  video_info : Option VideoInfo
deriving DecidableEq

/-- The error taxonomy of exceptions the embedded code can raise. -/
inductive PErr where
  | httpError
  | headerMissing
  | invalidHeader
  | badUrlFormat
  | indexError
  | tagFailed
  | unboundLocal
  | fileNotFound
  | authRequired
deriving DecidableEq

/-- External-world inputs of one media-processing call: HTTP success,
the response `Content-Type` header, the exiftool exit status, and the
pytz/timezonefinder localisation of the event timestamp (an opaque
collaborator, supplied as data). -/
structure Env where
  httpOk : Bool
  contentType : Option String
  tagOk : Bool
  tzOffsetStr : String
  localize : Timestamp → Timestamp

/-- Strip the query string: `media_url.split('?')[0]`. -/
def stripQuery (url : String) : String :=
  (strSplit url '?').headD url

/-- `url.split('/')` segments of the query-stripped URL. -/
def urlSegments (url : String) : List String :=
  strSplit (stripQuery url) '/'

/-- Index of the last `'.'` in a basename, if any. -/
def lastDotIdx (base : List Char) : Option Nat :=
  match base.reverse.findIdx? (fun c => c = '.') with
  | none => none
  | some j => some (base.length - 1 - j)

/-- `os.path.splitext` on the final path component: split at the last dot
unless every character before it is a dot (so `.bashrc` keeps no
extension). -/
def splitExtBase (base : List Char) : List Char × List Char :=
  match lastDotIdx base with
  | none => (base, [])
  | some i =>
    if (base.take i).all (fun c => c = '.') then (base, [])
    else (base.take i, base.drop i)

/-- `os.path.splitext` on a whole path: only the part after the last `/`
can contribute an extension. -/
def splitExt (p : String) : String × String :=
  let revBase := p.data.reverse.takeWhile (fun c => !(c = '/'))
  let base := revBase.reverse
  let dirp := p.data.take (p.data.length - base.length)
  let (stem, ext) := splitExtBase base
  (String.mk (dirp ++ stem), String.mk ext)

/-- One named exif tag value.  The numeric and GPS-pair payloads are kept
as data; the source only renders them into the exiftool command line. -/
inductive TagVal where
  | num (q : ℚ)
  | str (s : String)
  | gpsPair (lat lon : ℚ)
deriving DecidableEq

/-- A tag name/value pair passed to exiftool. -/
abbrev Tag := String × TagVal

/-- `BaseProcessor.write_tags`: run exiftool with `check=True`; a non-zero
exit status raises `CalledProcessError`.  The tag list is returned on
success so theorems can speak about what was emitted. -/
def writeTagsCmd (env : Env) (tags : List Tag) : Except PErr (List Tag) :=
  if env.tagOk then .ok tags else .error PErr.tagFailed

/-- `ImageProcessor.get_url`: `event.get('media', {}).get('image_url')`,
with the `AttributeError` on a `None` block caught and turned into `None`. -/
def imageGetUrl (e : Activity) : Option String :=
  e.media.bind (fun m => m.image_url)

/-- `VideoProcessor.get_url`: `event.get('video_info', {}).get('downloadable_url')`,
with the `AttributeError` on a `None` block caught and turned into `None`.
Note the source never reads `transcoding_status` here. -/
def videoGetUrl (e : Activity) : Option String :=
  e.video_info.bind (fun v => v.downloadable_url)

/-- `ImageProcessor.media_filename`: strip the query string, then take the
trailing segment when the URL ends in `jpg`, the second-to-last segment when
the trailing segment is `data-media`, and raise otherwise.  A missing
second-to-last segment is Python's `IndexError`. -/
def imageMediaFilename (download_dir media_url : String) (event_datetime : Timestamp) :
    Except PErr String :=
  let u0 := stripQuery media_url
  let url_parts := urlSegments media_url
  let file_id : Except PErr String :=
    if strEndsWith u0 "jpg" then
      .ok (url_parts.getLastD "")
    else if url_parts.getLastD "" = "data-media" then
      match url_parts.reverse with
      | _ :: prev :: _ => .ok prev
      | _ => .error PErr.indexError
    else .error PErr.badUrlFormat
  file_id.map (fun fid => pathJoin download_dir (formatYmdHmsZ event_datetime ++ fid))

/-- `VideoProcessor.media_filename`: strip the query string, hyphen-free
second-to-last segment plus `.` plus the extension of the last segment.
A URL with fewer than two segments is Python's `IndexError`. -/
def videoMediaFilename (download_dir media_url : String) (event_datetime : Timestamp) :
    Except PErr String :=
  let url_parts := urlSegments media_url
  match url_parts.reverse with
  | last :: prev :: _ =>
    let video_uuid := stripHyphens prev
    let video_ext := (strSplit last '.').getLastD ""
    .ok (pathJoin download_dir
      (formatYmdHmsZ event_datetime ++ video_uuid ++ "." ++ video_ext))
  | _ => .error PErr.indexError

/-- `ImageProcessor.set_tags` tag computation.  When `all(lat_lon)` is
falsy the source never assigns `created_datetime` yet formats it on the
next line, raising `UnboundLocalError`; that path is the `unboundLocal`
error.  The pytz localisation of the timestamp and the `%z` offset string
come from `Env`. -/
def imageTagList (env : Env) (event_datetime : Timestamp) (lat_lon : Option ℚ × Option ℚ) :
    Except PErr (List Tag) :=
  if pyTruthyQ lat_lon.1 && pyTruthyQ lat_lon.2 then
    match lat_lon with
    | (some lat, some lon) =>
      let created_datetime := env.localize event_datetime
      let lat_hemi := if lat < 0 then "S" else "N"
      let lon_hemi := if lon < 0 then "W" else "E"
      let gps : List Tag :=
        [("gpslatitude", TagVal.num lat),
         ("gpslongitude", TagVal.num lon),
         ("gpslatituderef", TagVal.str lat_hemi),
         ("gpslongituderef", TagVal.str lon_hemi)]
      let dt_str := formatColonDT created_datetime
      let tz_str := reformatOffset env.tzOffsetStr
      .ok (gps ++ [("ModifyDate", TagVal.str dt_str),
                   ("OffsetTimeDigitized", TagVal.str tz_str)])
    | _ => .error PErr.unboundLocal
  else .error PErr.unboundLocal

/-- `ImageProcessor.set_tags`: compute the tags, then invoke exiftool. -/
def imageSetTags (env : Env) (event_datetime : Timestamp) (lat_lon : Option ℚ × Option ℚ) :
    Except PErr (List Tag) :=
  match imageTagList env event_datetime lat_lon with
  | .error e => .error e
  | .ok tags => writeTagsCmd env tags

/-- `VideoProcessor.set_tags` tag computation: a combined GPS tag when both
coordinates are truthy, always a `CreateDate` tag from the raw event
timestamp. -/
def videoTagList (event_datetime : Timestamp) (lat_lon : Option ℚ × Option ℚ) :
    List Tag :=
  let gps : List Tag :=
    if pyTruthyQ lat_lon.1 && pyTruthyQ lat_lon.2 then
      match lat_lon with
      | (some lat, some lon) => [("Keys:GPSCoordinates", TagVal.gpsPair lat lon)]
      | _ => []
    else []
  gps ++ [("CreateDate", TagVal.str (formatColonDT event_datetime))]

/-- `VideoProcessor.set_tags`: compute the tags, then invoke exiftool. -/
def videoSetTags (env : Env) (event_datetime : Timestamp) (lat_lon : Option ℚ × Option ℚ) :
    Except PErr (List Tag) :=
  writeTagsCmd env (videoTagList event_datetime lat_lon)

/-- The virtual-method table of `BaseProcessor`: the three methods the two
concrete processors override. -/
structure Processor where
  getUrl : Activity → Option String
  mediaFilename : String → String → Timestamp → Except PErr String
  setTags : Env → Timestamp → (Option ℚ × Option ℚ) → Except PErr (List Tag)

/-- `ImageProcessor` instance. -/
def imageProcessor : Processor :=
  { getUrl := imageGetUrl
    mediaFilename := imageMediaFilename
    setTags := imageSetTags }

/-- `VideoProcessor` instance. -/
def videoProcessor : Processor :=
  { getUrl := videoGetUrl
    mediaFilename := videoMediaFilename
    setTags := videoSetTags }

/-- `glob.glob(f'{media_filename}*')` is non-empty: some file on disk has
the computed filename as a prefix. -/
def globAny (fs : List String) (pat : String) : Bool :=
  fs.any (fun f => strStartsWithStr f pat)

/-- `os.remove`d file list. -/
def removeFile (fs : List String) (f : String) : List String :=
  fs.filter (fun x => !(x = f))

/-- `BaseProcessor.repair_extension`: if the written filename has no
extension, derive one from the `Content-Type` header (`jpeg` becomes
`jpg`) and `os.rename` the file. -/
def repairExtension (env : Env) (old_filename : String) (fs : List String) :
    Except PErr String × List String :=
  let se := splitExt old_filename
  if !(se.2 = "") then (.ok old_filename, fs)
  else
    match env.contentType with
    | none => (.error PErr.headerMissing, fs)
    | some content_type =>
      match (strSplit content_type '/').get? 1 with
      | none => (.error PErr.invalidHeader, fs)
      | some ext0 =>
        let extension := if ext0 = "jpeg" then "jpg" else ext0
        let new_filename := se.1 ++ "." ++ extension
        (.ok new_filename, new_filename :: removeFile fs old_filename)

/-- `BaseProcessor.download`: `raise_for_status`, stream the body into the
file, then repair the extension.  On HTTP failure nothing is written. -/
def download (env : Env) (_url filename : String) (fs : List String) :
    Except PErr String × List String :=
  if !env.httpOk then (.error PErr.httpError, fs)
  else repairExtension env filename (filename :: fs)

/-- The tagging tail of `BaseProcessor.process`: when tags are requested,
run `set_tags`; on any exception `os.remove` the file (itself raising
`FileNotFoundError` when the path is absent) and re-raise. -/
def tagPhase (p : Processor) (env : Env) ( write_tags : Bool) (event_datetime : Timestamp)
    (lat_lon : Option ℚ × Option ℚ) (media_filename : String) (downloaded : Bool)
    (fs : List String) : Except PErr (Bool × Bool × Bool) × List String :=
  if write_tags then
    match p.setTags env event_datetime lat_lon with
    | .ok _ => (.ok (true, downloaded, true), fs)
    | .error e =>
      if fs.contains media_filename then (.error e, removeFile fs media_filename)
      else (.error PErr.fileNotFound, fs)
  else (.ok (true, downloaded, false), fs)

/-- `BaseProcessor.process` (src/processors/__init__.py lines 51-104):
extract the URL, stop with all-false flags when it is falsy, compute the
filename, download unless a glob match exists and `force_dl` is unset,
then optionally tag; returns the `(processed, downloaded, tagged)` triple
and the resulting filesystem. -/
def process (p : Processor) (env : Env) (download_dir : String) (raw_data : Activity)
    ( write_tags force_dl : Bool) (latitude longitude : Option ℚ) (fs : List String) :
    Except PErr (Bool × Bool × Bool) × List String :=
  let media_url_opt := p.getUrl raw_data
  if pyTruthyStr media_url_opt then
    let media_url := media_url_opt.getD ""
    let event_datetime := raw_data.event_date
    match p.mediaFilename download_dir media_url event_datetime with
    | .error e => (.error e, fs)
    | .ok media_filename =>
      if !(globAny fs media_filename) || force_dl then
        match download env media_url media_filename fs with
        | (.error e, fs1) => (.error e, fs1)
        | (.ok new_filename, fs1) =>
          tagPhase p env write_tags event_datetime (latitude, longitude)
            new_filename true fs1
      else
        tagPhase p env write_tags event_datetime (latitude, longitude)
          media_filename false fs
  else (.ok (false, false, false), fs)

instance {ε α : Type} [DecidableEq ε] [DecidableEq α] : DecidableEq (Except ε α) := fun x y =>
  match x, y with
  | .ok a, .ok b =>
    match decEq a b with
    | isTrue h => isTrue (h ▸ rfl)
    | isFalse h => isFalse (fun he => h (Except.ok.inj he))
  | .error a, .error b =>
    match decEq a b with
    | isTrue h => isTrue (h ▸ rfl)
    | isFalse h => isFalse (fun he => h (Except.error.inj he))
  | .ok _, .error _ => isFalse (fun he => Except.noConfusion he)
  | .error _, .ok _ => isFalse (fun he => Except.noConfusion he)

/-- One row of the `activities` table: id, student id, event date, action
type, the JSON payload (kept as the structured payload it serialises), and
the processed flag. -/
structure ActivityRow where
  id : String
  student_id : String
  event_date : Timestamp
  action_type : String
  json : Activity
  processed : Bool
deriving DecidableEq

/-- The persistent store: the `activities` table and the auth-cookie table
(login/cookie pairs). -/
structure DBState where
  activities : List ActivityRow
  cookies : List (String × String)
deriving DecidableEq

/-- Number of stored rows carrying a given activity identifier. -/
def countRows (db : DBState) (id : String) : Nat :=
  db.activities.countP (fun r => decide (r.id = id))

/-- The stored payload for an identifier, if any. -/
def lookupRow (db : DBState) (id : String) : Option Activity :=
  (db.activities.find? (fun r => decide (r.id = id))).map (fun r => r.json)

/-- Modelled from the spec: the SQL text of
`database/queries/insert_activity.sql` is not under src/ (only
`DB.insert_activity` and `DB._modify`, which execute it, are).  Per the
spec, one row per unique activity identifier and "duplicate identifiers
are silently skipped (idempotent ingestion)": inserting a fresh identifier
appends a row and yields its positive rowid, inserting an existing
identifier changes nothing and yields no rowid (0 here, so the caller's
`result > 0` is false). -/
def insertActivitySQL (db : DBState) (student_id : String) (event : Activity) :
    DBState × Nat :=
  if db.activities.any (fun r => decide (r.id = event.object_id)) then (db, 0)
  else
    ({ db with activities := db.activities ++
        [{ id := event.object_id, student_id := student_id,
           event_date := event.event_date, action_type := event.action_type,
           json := event, processed := false }] },
     db.activities.length + 1)

/-- `DB.insert_activity`: run the insert and report whether a row was
newly inserted (`result > 0`). -/
def DB_insert_activity (db : DBState) (student_id : String) (event : Activity) :
    DBState × Bool :=
  let r := insertActivitySQL db student_id event
  (r.1, decide (r.2 > 0))

/-- Modelled from the spec: the SQL text of
`database/queries/select_auth_cookie_by_login.sql` is not under src/.  Per
the spec, one token per login; `DB.select_cookie` returns the first (only)
matching row's cookie or `None`. -/
def DB_select_cookie (db : DBState) (login : String) : Option String :=
  (db.cookies.find? (fun c => decide (c.1 = login))).map (fun c => c.2)

/-- Modelled from the spec: the SQL text of
`database/queries/insert_auth_cookie_by_login.sql` is not under src/.  Per
the spec, "set overwrites any prior value for that login". -/
def DB_insert_cookie (db : DBState) (login value : String) : DBState :=
  { db with cookies := db.cookies.filter (fun c => !(c.1 = login)) ++ [(login, value)] }

/-- One iteration body of the `for activity in batch` loop of
`save_metadata` (src/download.py lines 194-205): a present `video_info`
whose `transcoding_status` is not `"complete"` bumps the skip counter and
short-circuits; otherwise the activity is inserted and the added counter
bumped when the insert reports a new row.  State is
`(db, skip_count, new_count)`. -/
def smStep (student_id : String) (acc : DBState × Nat × Nat) (activity : Activity) :
    DBState × Nat × Nat :=
  let db := acc.1
  let skip_count := acc.2.1
  let new_count := acc.2.2
  match activity.video_info with
  | some video_info =>
    if !(video_info.transcoding_status = "complete") then
      (db, skip_count + 1, new_count)
    else
      let r := DB_insert_activity db student_id activity
      (r.1, skip_count, if r.2 then new_count + 1 else new_count)
  | none =>
    let r := DB_insert_activity db student_id activity
    (r.1, skip_count, if r.2 then new_count + 1 else new_count)

/-- The observable outcome of one `save_metadata` run: the store, the three
counters it prints, and the sequence of page numbers it requested from
`get_students_activities`. -/
structure SMResult where
  db : DBState
  skip_count : Nat
  new_count : Nat
  result_count : Nat
  requested : List Nat
deriving DecidableEq

/-- The remote feed, modelled as the finite list of pages the API would
serve in order; any page past the end comes back empty. -/
def fetchPage (pages : List (List Activity)) (i : Nat) : List Activity :=
  (pages.get? i).getD []

/-- The `while True` pagination loop of `save_metadata`
(src/download.py lines 185-209) with `page_size = 25`, structurally
recursive on the pages the feed still holds.  Each round requests the
current page, folds the batch through `smStep`, adds the batch length to
`result_count`, and stops exactly when `len(batch) < page_size`;
otherwise it recurses with `page + 1`.  An exhausted feed returns an empty
batch, whose length `0 < 25` ends the loop. -/
def saveMetadataGo (student_id : String) (pages : List (List Activity)) (page : Nat)
    (db : DBState) (skip_count new_count result_count : Nat) (req : List Nat) : SMResult :=
  match pages with
  | [] =>
    { db := db, skip_count := skip_count, new_count := new_count,
      result_count := result_count, requested := req ++ [page] }
  | batch :: rest =>
    let s := batch.foldl (smStep student_id) (db, skip_count, new_count)
    let result_count2 := result_count + batch.length
    if batch.length < 25 then
      { db := s.1, skip_count := s.2.1, new_count := s.2.2,
        result_count := result_count2, requested := req ++ [page] }
    else
      saveMetadataGo student_id rest (page + 1) s.1 s.2.1 s.2.2 result_count2
        (req ++ [page])

/-- `save_metadata`: the loop started at `page = 0` with zeroed counters. -/
def save_metadata (student_id : String) (pages : List (List Activity)) (db : DBState) :
    SMResult :=
  saveMetadataGo student_id pages 0 db 0 0 0 []

/-- Index of the first page whose size is strictly below 25 (the page the
loop stops on); past the end of the feed every page is empty, so the
index is at most `pages.length`. -/
def firstShortPage : List (List Activity) → Nat
  | [] => 0
  | batch :: rest => if batch.length < 25 then 0 else firstShortPage rest + 1

/-- `Client.__init__` (src/brightwheel/__init__.py lines 28-46) reduced to
its session outcome: adopt a truthy stored cookie unless `force_login`;
otherwise fail in headless mode; otherwise interactive login leaves a
fresh session cookie.  The returned string is what `session_auth()` then
reads back from the session's cookie jar. -/
def clientInit (stored : Option String) (headless force_login : Bool)
    (freshToken : String) : Except PErr String :=
  if pyTruthyStr stored && !force_login then .ok (stored.getD "")
  else if headless then .error PErr.authRequired
  else .ok freshToken

/-- The auth prologue of `dl_metadata` (src/download.py lines 138-150):
read the stored cookie, construct the client, and only when no truthy
cookie was stored cache `client.session_auth()`. -/
def dl_metadata_auth (db : DBState) (login : String) (headless force_login : Bool)
    (freshToken : String) : Except PErr DBState :=
  let stored_auth := DB_select_cookie db login
  match clientInit stored_auth headless force_login freshToken with
  | .error e => .error e
  | .ok tok =>
    if pyTruthyStr stored_auth then .ok db
    else .ok (DB_insert_cookie db login tok)

/-! Spec-side filename vocabulary, written from the specification's words
("trailing path segment before the query string", "the path segment two
levels from the end"), for comparison with the code's filename
functions. -/

/-- The trailing path segment of the query-stripped URL. -/
def specTrailingSegment (url : String) : String :=
  (urlSegments url).getLastD ""

/-- The spec's image destination filename: timestamp plus trailing path
segment before the query string. -/
def specImageFilename (download_dir url : String) (ts : Timestamp) : String :=
  pathJoin download_dir (formatYmdHmsZ ts ++ specTrailingSegment url)

/-- The path segment two levels from the end of the query-stripped URL. -/
def specSegmentTwoFromEnd (url : String) : String :=
  ((urlSegments url).reverse.get? 1).getD ""

/-- The spec's video destination filename: timestamp, hyphen-stripped
segment two levels from the end, a dot, and the extension of the final
segment. -/
def specVideoFilename (download_dir url : String) (ts : Timestamp) : String :=
  pathJoin download_dir
    (formatYmdHmsZ ts ++ stripHyphens (specSegmentTwoFromEnd url) ++ "." ++
      (strSplit (specTrailingSegment url) '.').getLastD "")

/-! Concrete fixtures used by counterexamples and witnesses. -/

/-- Fixture timestamp 2020-01-02 03:04:05. -/
def ts0 : Timestamp := ⟨2020, 1, 2, 3, 4, 5⟩

/-- Fixture external world: HTTP succeeds, JPEG content type, exiftool
succeeds, UTC offset, identity localisation. -/
def env0 : Env :=
  { httpOk := true, contentType := some "image/jpeg", tagOk := true,
    tzOffsetStr := "+0000", localize := fun t => t }

/-- Fixture activity whose video is still transcoding yet carries a
downloadable URL. -/
def vidPendingActivity : Activity :=
  { object_id := "a1", event_date := ts0, action_type := "ac", media := none,
    video_info := some { transcoding_status := "processing",
                         downloadable_url := some "https://cdn/v/abc-1/hd.mp4" } }

/-- Fixture activity carrying an image URL and no video. -/
def imgActivity : Activity :=
  { object_id := "a2", event_date := ts0, action_type := "ac",
    media := some { image_url := some "https://cdn/x/pic.jpg?sig=1" },
    video_info := none }

/-- Fixture activity with a completed video. -/
def vidDoneActivity : Activity :=
  { object_id := "a3", event_date := ts0, action_type := "ac", media := none,
    video_info := some { transcoding_status := "complete",
                         downloadable_url := some "https://cdn/v/abc-1/hd.mp4" } }

/-- Fixture activity with no media of either kind. -/
def bareActivity : Activity :=
  { object_id := "a4", event_date := ts0, action_type := "ac",
    media := none, video_info := none }

/-- Fixture external world whose exiftool invocation exits non-zero. -/
def envTagFail : Env :=
  { httpOk := true, contentType := some "image/jpeg", tagOk := false,
    tzOffsetStr := "+0000", localize := fun t => t }

/-- Fixture feed: one full page of 25 activities, then a short page. -/
def pages0 : List (List Activity) :=
  [List.replicate 25 bareActivity, [bareActivity]]

/-- Fixture empty store. -/
def db0 : DBState := { activities := [], cookies := [] }

/-- Fixture store holding a cached cookie for login `user`. -/
def dbWithCookie : DBState := { activities := [], cookies := [("user", "tok123")] }

/-- Fixture activity whose video block has a pending transcode and no URL. -/
def vidNoUrlActivity : Activity :=
  { object_id := "a5", event_date := ts0, action_type := "ac", media := none,
    video_info := some { transcoding_status := "pending", downloadable_url := none } }

/-- Fixture video block carrying a URL. -/
def viWithUrl : VideoInfo :=
  { transcoding_status := "processing",
    downloadable_url := some "https://cdn/v/abc-1/hd.mp4" }

/-- Fixture activity carrying a `data-media` image URL, whose computed
filename has no extension (a later download repairs it from the
`Content-Type` header). -/
def dataMediaActivity : Activity :=
  { object_id := "a6", event_date := ts0, action_type := "ac",
    media := some { image_url := some "https://cdn/abc-123/data-media" },
    video_info := none }

/-! ### Claim C1 -/

/-- C1 counterexample: an activity whose `video_info.transcoding_status`
is `"processing"` (not `"complete"`) but which carries a
`downloadable_url` is NOT treated as absent media by
`VideoProcessor`/`BaseProcessor.process`: the URL is extracted, the file
is downloaded, and the call returns `processed = true` — contradicting the
claim that such a payload yields `processed = false` with no download. -/
theorem claim1_counterexample :
    vidPendingActivity.video_info =
      some { transcoding_status := "processing",
             downloadable_url := some "https://cdn/v/abc-1/hd.mp4" }
    ∧ videoGetUrl vidPendingActivity = some "https://cdn/v/abc-1/hd.mp4"
    ∧ (process videoProcessor env0 "d" vidPendingActivity false false none none [])
        = (.ok (true, true, false), ["d/20200102030405Zabc1.mp4"]) := by
  refine ⟨rfl, rfl, ?_⟩
  decide

/-- C1 amended: `VideoProcessor` never consults `transcoding_status`; its
`Process` treats the media as absent (extracting no URL, downloading and
tagging nothing, returning `processed = false`) exactly when the payload's
`video_info.downloadable_url` is absent or empty, and its extracted URL is
invariant under changes of `transcoding_status`.  The
incomplete-transcode skip happens in metadata sync instead. -/
theorem claim1_amended_video_ignores_transcoding (env : Env) (dir : String)
    (raw : Activity) ( write_tags force_dl : Bool) (lat lon : Option ℚ)
    (fs : List String) (h : pyTruthyStr (videoGetUrl raw) = false) :
    process videoProcessor env dir raw write_tags force_dl lat lon fs
      = (.ok (false, false, false), fs)
    ∧ ∀ (vi : VideoInfo) (s1 s2 : String),
        videoGetUrl ({ raw with video_info := some ({ vi with transcoding_status := s1 }) })
          = videoGetUrl ({ raw with video_info := some ({ vi with transcoding_status := s2 }) }) := by
  constructor
  · simp [process, videoProcessor, h]
  · intro vi s1 s2
    rfl

/-- C1 amended witness at concrete inputs: a payload with
`transcoding_status = "pending"` and no `downloadable_url` is treated as
absent media, and the extracted URL is unchanged when a video block's
status is rewritten from `"processing"` to `"complete"`. -/
theorem claim1_amended_witness :
    process videoProcessor env0 "d" vidNoUrlActivity false false none none []
      = (.ok (false, false, false), [])
    ∧ videoGetUrl ({ vidNoUrlActivity with video_info := some ({ viWithUrl with transcoding_status := "processing" }) })
        = videoGetUrl ({ vidNoUrlActivity with video_info := some ({ viWithUrl with transcoding_status := "complete" }) }) := by
  have h := claim1_amended_video_ignores_transcoding env0 "d" vidNoUrlActivity
    false false none none [] (by decide)
  exact ⟨h.1, h.2 viWithUrl "processing" "complete"⟩

/-! ### Claim C7 -/

/-- C7 counterexample: for the image URL `https://cdn/abc-123/data-media`
the computed filename uses the path segment `abc-123` two levels from the
end, not the trailing path segment `data-media` the claim prescribes for
images. -/
theorem claim7_counterexample :
    imageMediaFilename "d" "https://cdn/abc-123/data-media" ts0
      = .ok "d/20200102030405Zabc-123"
    ∧ specImageFilename "d" "https://cdn/abc-123/data-media" ts0
      = "d/20200102030405Zdata-media"
    ∧ "d/20200102030405Zabc-123" ≠ "d/20200102030405Zdata-media" := by
  refine ⟨rfl, rfl, ?_⟩
  decide

/-- C7 amended: the destination filename is deterministic (the embedded
functions are pure), and equals the `YYYYMMDDHHMMSSZ` timestamp
concatenated with: for images whose query-stripped URL ends in `jpg`, the
trailing path segment; for images whose trailing segment is `data-media`,
the segment before it (any other image URL shape raises); for videos, the
hyphen-stripped segment two levels from the end plus `.` plus the
extension of the final segment of the query-stripped URL. -/
theorem claim7_amended_filename_format (download_dir url : String) (ts : Timestamp) :
    (strEndsWith (stripQuery url) "jpg" = true →
       imageMediaFilename download_dir url ts = .ok (specImageFilename download_dir url ts))
    ∧ (strEndsWith (stripQuery url) "jpg" = false →
       (urlSegments url).getLastD "" = "data-media" → 2 ≤ (urlSegments url).length →
       imageMediaFilename download_dir url ts
         = .ok (pathJoin download_dir (formatYmdHmsZ ts ++ specSegmentTwoFromEnd url)))
    ∧ (2 ≤ (urlSegments url).length →
       videoMediaFilename download_dir url ts = .ok (specVideoFilename download_dir url ts)) := by
  refine ⟨?_, ?_, ?_⟩
  · intro hjpg
    simp [imageMediaFilename, specImageFilename, specTrailingSegment, hjpg, Except.map]
  · intro hnj hd hlen
    rw [← List.length_reverse] at hlen
    cases hrev : (urlSegments url).reverse with
    | nil =>
      rw [hrev] at hlen
      simp at hlen
    | cons a l1 =>
      cases l1 with
      | nil =>
        rw [hrev] at hlen
        simp at hlen
      | cons b t =>
        rw [List.getLastD_eq_getLast?] at hd
        simp [imageMediaFilename, hnj, hd, hrev, specSegmentTwoFromEnd, Except.map]
  · intro hlen
    rw [← List.length_reverse] at hlen
    cases hrev : (urlSegments url).reverse with
    | nil =>
      rw [hrev] at hlen
      simp at hlen
    | cons a l1 =>
      cases l1 with
      | nil =>
        rw [hrev] at hlen
        simp at hlen
      | cons b t =>
        have hlast : (urlSegments url).getLast? = some a := by
          rw [← List.head?_reverse, hrev]
          rfl
        simp [videoMediaFilename, specVideoFilename, specSegmentTwoFromEnd,
          specTrailingSegment, hrev, hlast]

/-- C7 amended witness: the three cases at concrete URLs — a `jpg` image
URL with a query string, a `data-media` image URL, and a video URL. -/
theorem claim7_amended_witness :
    imageMediaFilename "d" "https://cdn/x/pic.jpg?sig=1" ts0
      = .ok (specImageFilename "d" "https://cdn/x/pic.jpg?sig=1" ts0)
    ∧ imageMediaFilename "d" "https://cdn/abc-123/data-media" ts0
      = .ok (pathJoin "d" (formatYmdHmsZ ts0 ++ specSegmentTwoFromEnd "https://cdn/abc-123/data-media"))
    ∧ videoMediaFilename "d" "https://cdn/v/abc-1/hd.mp4" ts0
      = .ok (specVideoFilename "d" "https://cdn/v/abc-1/hd.mp4" ts0) := by
  refine ⟨?_, ?_, ?_⟩
  · exact (claim7_amended_filename_format "d" "https://cdn/x/pic.jpg?sig=1" ts0).1 (by decide)
  · exact (claim7_amended_filename_format "d" "https://cdn/abc-123/data-media" ts0).2.1
      (by decide) (by decide) (by decide)
  · exact (claim7_amended_filename_format "d" "https://cdn/v/abc-1/hd.mp4" ts0).2.2 (by decide)

/-! ### Claim C8 -/

/-- C8 counterexample: latitude `0` and longitude `10` are both supplied,
yet `ImageProcessor.set_tags` emits no GPS tags at all — Python's
`all(lat_lon)` treats the zero coordinate as missing, and the call then
raises `UnboundLocalError` on the never-assigned `created_datetime`. -/
theorem claim8_counterexample :
    imageTagList env0 ts0 (some 0, some 10) = .error PErr.unboundLocal
    ∧ imageSetTags env0 ts0 (some 0, some 10) = .error PErr.unboundLocal := by
  constructor <;> decide

/-- C8 amended: for every image tagging call in which both latitude and
longitude are supplied AND nonzero (`all(lat_lon)` truthiness), the
emitted tag set includes GPS latitude and longitude tags plus hemisphere
reference tags determined by sign (`S` for negative latitude else `N`,
`W` for negative longitude else `E`), and `set_tags` forwards exactly
that tag set to exiftool. -/
theorem claim8_amended_gps_hemispheres (env : Env) (ts : Timestamp) (lat lon : ℚ)
    (hlat : lat ≠ 0) (hlon : lon ≠ 0) :
    ∃ tags, imageTagList env ts (some lat, some lon) = .ok tags
      ∧ imageSetTags env ts (some lat, some lon) = writeTagsCmd env tags
      ∧ ("gpslatitude", TagVal.num lat) ∈ tags
      ∧ ("gpslongitude", TagVal.num lon) ∈ tags
      ∧ ("gpslatituderef", TagVal.str (if lat < 0 then "S" else "N")) ∈ tags
      ∧ ("gpslongituderef", TagVal.str (if lon < 0 then "W" else "E")) ∈ tags := by
  have h1 : imageTagList env ts (some lat, some lon) =
      .ok [("gpslatitude", TagVal.num lat),
           ("gpslongitude", TagVal.num lon),
           ("gpslatituderef", TagVal.str (if lat < 0 then "S" else "N")),
           ("gpslongituderef", TagVal.str (if lon < 0 then "W" else "E")),
           ("ModifyDate", TagVal.str (formatColonDT (env.localize ts))),
           ("OffsetTimeDigitized", TagVal.str (reformatOffset env.tzOffsetStr))] := by
    simp [imageTagList, pyTruthyQ, hlat, hlon]
  refine ⟨_, h1, ?_, ?_, ?_, ?_, ?_⟩
  · simp [imageSetTags, h1]
  · simp
  · simp
  · simp
  · simp

/-- C8 amended witness: latitude `37.7749`, longitude `-122.4194` yield a
tag set containing hemisphere references `N` and `W`. -/
theorem claim8_amended_witness :
    ∃ tags, imageTagList env0 ts0 (some (377749/10000 : ℚ), some (-1224194/10000 : ℚ))
        = .ok tags
      ∧ ("gpslatituderef", TagVal.str "N") ∈ tags
      ∧ ("gpslongituderef", TagVal.str "W") ∈ tags := by
  obtain ⟨tags, h1, _h2, _h3, _h4, h5, h6⟩ :=
    claim8_amended_gps_hemispheres env0 ts0 (377749/10000) (-1224194/10000)
      (by norm_num) (by norm_num)
  refine ⟨tags, h1, ?_, ?_⟩
  · have hpos : ¬((377749/10000 : ℚ) < 0) := by norm_num
    simpa [hpos] using h5
  · have hneg : ((-1224194/10000 : ℚ) < 0) := by norm_num
    simpa [hneg] using h6

/-! ### Claims C5, C6, C9: the `process` contract -/

/-- The filename `download` reports on success is on the resulting
filesystem: either the file as written, or the renamed file after
extension repair. -/
theorem download_ok_mem (env : Env) (url fn fn1 : String) (fs fs1 : List String)
    (h : download env url fn fs = (.ok fn1, fs1)) : fn1 ∈ fs1 := by
  by_cases hh : env.httpOk
  · simp only [download, hh, Bool.not_true, Bool.false_eq_true, if_false] at h
    by_cases he : (splitExt fn).2 = ""
    · cases hct : env.contentType with
      | none => simp [repairExtension, he, hct] at h
      | some ct =>
        cases hg : (strSplit ct '/')[1]? with
        | none => simp [repairExtension, he, hct, hg] at h
        | some ext0 =>
          simp [repairExtension, he, hct, hg, Prod.ext_iff] at h
          obtain ⟨h1, h2⟩ := h
          subst h1
          subst h2
          exact List.mem_cons_self _ _
    · simp [repairExtension, he, Prod.ext_iff] at h
      obtain ⟨h1, h2⟩ := h
      subst h1
      subst h2
      exact List.mem_cons_self _ _
  · simp [download, hh] at h

/-- A removed file is gone from the filesystem list. -/
theorem not_mem_removeFile (fs : List String) (f : String) : f ∉ removeFile fs f := by
  intro hmem
  rw [removeFile, List.mem_filter] at hmem
  simp at hmem

/-- C5: `BaseProcessor.process` returns `(processed, downloaded, tagged)`
such that an absent (falsy) media URL yields `(false, false, false)` with
the filesystem untouched, and a present URL with a normal return yields
`processed = true`, `downloaded` true exactly when the download branch ran
(no glob match or `force_dl`), and `tagged` true exactly when tagging was
requested (a requested tagging that fails never returns normally). -/
theorem claim5_process_triple (p : Processor) (env : Env) (dir : String) (raw : Activity)
    ( write_tags force_dl : Bool) (lat lon : Option ℚ) (fs : List String) :
    (pyTruthyStr (p.getUrl raw) = false →
       process p env dir raw write_tags force_dl lat lon fs
         = (.ok (false, false, false), fs))
    ∧ (∀ fn pr dl tg fs2, pyTruthyStr (p.getUrl raw) = true →
        p.mediaFilename dir ((p.getUrl raw).getD "") raw.event_date = .ok fn →
        process p env dir raw write_tags force_dl lat lon fs = (.ok (pr, dl, tg), fs2) →
        pr = true ∧ dl = (!(globAny fs fn) || force_dl) ∧ tg = write_tags) := by
  constructor
  · intro h
    simp [process, h]
  · intro fn pr dl tg fs2 hurl hfn hrun
    simp only [process, hurl, hfn, if_true] at hrun
    split at hrun
    · rename_i hb
      split at hrun
      · simp at hrun
      · unfold tagPhase at hrun
        split at hrun
        · rename_i hw
          split at hrun
          · rw [Prod.mk.injEq, Except.ok.injEq, Prod.mk.injEq, Prod.mk.injEq] at hrun
            obtain ⟨⟨h1, h2, h3⟩, _⟩ := hrun
            exact ⟨h1.symm, by rw [← h2, hb], by rw [← h3, hw]⟩
          · split at hrun <;> simp at hrun
        · rename_i hw
          rw [Prod.mk.injEq, Except.ok.injEq, Prod.mk.injEq, Prod.mk.injEq] at hrun
          obtain ⟨⟨h1, h2, h3⟩, _⟩ := hrun
          exact ⟨h1.symm, by rw [← h2, hb], by rw [← h3, Bool.not_eq_true] at *; rw [hw]⟩
    · rename_i hb
      unfold tagPhase at hrun
      split at hrun
      · rename_i hw
        split at hrun
        · rw [Prod.mk.injEq, Except.ok.injEq, Prod.mk.injEq, Prod.mk.injEq] at hrun
          obtain ⟨⟨h1, h2, h3⟩, _⟩ := hrun
          refine ⟨h1.symm, ?_, by rw [← h3, hw]⟩
          rw [← h2, Bool.not_eq_true] at *
          rw [eq_comm, hb]
        · split at hrun <;> simp at hrun
      · rename_i hw
        rw [Prod.mk.injEq, Except.ok.injEq, Prod.mk.injEq, Prod.mk.injEq] at hrun
        obtain ⟨⟨h1, h2, h3⟩, _⟩ := hrun
        refine ⟨h1.symm, ?_, ?_⟩
        · rw [← h2, Bool.not_eq_true] at *
          rw [eq_comm, hb]
        · rw [← h3, Bool.not_eq_true] at *
          rw [hw]

/-- C5 witness: a no-media activity comes back `(false, false, false)`
with the filesystem untouched, and at the fixture image activity the
normal return's `downloaded` flag equals the evaluated download-branch
condition on an empty disk. -/
theorem claim5_witness :
    process imageProcessor env0 "d" bareActivity false false none none []
      = (.ok (false, false, false), [])
    ∧ true = (!(globAny ([] : List String) "d/20200102030405Zpic.jpg") || false) := by
  refine ⟨(claim5_process_triple imageProcessor env0 "d" bareActivity
    false false none none []).1 (by decide), ?_⟩
  exact ((claim5_process_triple imageProcessor env0 "d" imgActivity false false none none []).2
    "d/20200102030405Zpic.jpg" true true false ["d/20200102030405Zpic.jpg"]
    (by decide) (by decide) (by decide)).2.1

/-- C9: with `force_dl` unset and a glob match for the computed filename
already on disk, `process` reduces to the tagging phase with
`downloaded = false` and the filesystem untouched by downloading; when
tagging is requested it is still attempted (succeeding tagging gives
`(true, false, true)`), and without tagging the call returns
`(true, false, false)`. -/
theorem claim9_existing_file_skips_download (p : Processor) (env : Env) (dir : String)
    (raw : Activity) ( write_tags : Bool) (lat lon : Option ℚ) (fs : List String)
    (fn : String)
    (hurl : pyTruthyStr (p.getUrl raw) = true)
    (hfn : p.mediaFilename dir ((p.getUrl raw).getD "") raw.event_date = .ok fn)
    (hglob : globAny fs fn = true) :
    process p env dir raw write_tags false lat lon fs
      = tagPhase p env write_tags raw.event_date (lat, lon) fn false fs
    ∧ (∀ tags, write_tags = true → p.setTags env raw.event_date (lat, lon) = .ok tags →
        process p env dir raw write_tags false lat lon fs = (.ok (true, false, true), fs))
    ∧ ( write_tags = false →
        process p env dir raw write_tags false lat lon fs
          = (.ok (true, false, false), fs)) := by
  have h1 : process p env dir raw write_tags false lat lon fs
      = tagPhase p env write_tags raw.event_date (lat, lon) fn false fs := by
    simp [process, hurl, hfn, hglob]
  refine ⟨h1, ?_, ?_⟩
  · intro tags hw ht
    rw [h1]
    simp [tagPhase, hw, ht]
  · intro hw
    rw [h1]
    simp [tagPhase, hw]

/-- C9 witness: with the computed filename already on disk and tagging
requested with nonzero coordinates, the call skips the download yet tags,
returning `(true, false, true)` and leaving the filesystem unchanged. -/
theorem claim9_witness :
    process imageProcessor env0 "d" imgActivity true false (some 1) (some (-1))
        ["d/20200102030405Zpic.jpg"]
      = (.ok (true, false, true), ["d/20200102030405Zpic.jpg"]) := by
  exact (claim9_existing_file_skips_download imageProcessor env0 "d" imgActivity true
    (some 1) (some (-1)) ["d/20200102030405Zpic.jpg"] "d/20200102030405Zpic.jpg"
    (by decide) (by decide) (by decide)).2.1
    [("gpslatitude", TagVal.num 1), ("gpslongitude", TagVal.num (-1)),
     ("gpslatituderef", TagVal.str "N"), ("gpslongituderef", TagVal.str "W"),
     ("ModifyDate", TagVal.str "2020:01:02 03:04:05"),
     ("OffsetTimeDigitized", TagVal.str "+00:00")] rfl (by decide)

/-- C6 counterexample: a reachable run in which tagging is requested and
the tagging subprocess fails, yet the media file on disk is NOT deleted
and the error surfaced is not the tagging failure.  The `data-media`
image was downloaded on an earlier run and stored with a repaired
extension (`…Zabc-123.jpg`); this run computes the extensionless name
`…Zabc-123`, glob-matches the old file, skips the download, fails the
tags (exiftool exits non-zero, so `set_tags` is `tagFailed`), and then
`os.remove` on the extensionless name raises `FileNotFoundError` —
leaving the glob-matched file on disk. -/
theorem claim6_counterexample :
    imageProcessor.setTags envTagFail ts0 (some 1, some (-1)) = .error PErr.tagFailed
    ∧ process imageProcessor envTagFail "d" dataMediaActivity true false
        (some 1) (some (-1)) ["d/20200102030405Zabc-123.jpg"]
      = (.error PErr.fileNotFound, ["d/20200102030405Zabc-123.jpg"]) := by
  constructor <;> decide

/-- C6 amended: when tagging is requested and the tagging step fails,
`process` never returns normally; whenever a file exists on disk under
the exact name handed to the tagging step — in particular always when the
download step just wrote it — that file is deleted and the tagging
failure re-raised; but when the download was skipped and the on-disk file
matches the computed name only as a strict prefix (a repaired extension),
`os.remove` raises `FileNotFoundError`, superseding the tagging error,
and the matched file stays on disk. -/
theorem claim6_tag_failure_deletes_file (p : Processor) (env : Env) (dir : String)
    (raw : Activity) (force_dl : Bool) (lat lon : Option ℚ) (fs : List String)
    (fn0 : String) (e : PErr)
    (hurl : pyTruthyStr (p.getUrl raw) = true)
    (hfn : p.mediaFilename dir ((p.getUrl raw).getD "") raw.event_date = .ok fn0)
    (htag : p.setTags env raw.event_date (lat, lon) = .error e) :
    (process p env dir raw true force_dl lat lon fs).1.isOk = false
    ∧ (∀ fn1 fs1, (!(globAny fs fn0) || force_dl) = true →
        download env ((p.getUrl raw).getD "") fn0 fs = (.ok fn1, fs1) →
        process p env dir raw true force_dl lat lon fs = (.error e, removeFile fs1 fn1)
        ∧ fn1 ∉ removeFile fs1 fn1)
    ∧ ((!(globAny fs fn0) || force_dl) = false →
        (fs.contains fn0 = true →
          process p env dir raw true force_dl lat lon fs = (.error e, removeFile fs fn0)
          ∧ fn0 ∉ removeFile fs fn0)
        ∧ (fs.contains fn0 = false →
          process p env dir raw true force_dl lat lon fs
            = (.error PErr.fileNotFound, fs))) := by
  refine ⟨?_, ?_, ?_⟩
  · by_cases hb : (!(globAny fs fn0) || force_dl) = true
    · rcases hd : download env ((p.getUrl raw).getD "") fn0 fs with ⟨res, fs1⟩
      cases res with
      | error e2 =>
        simp only [process, hurl, hfn, hb, hd, if_true]
        rfl
      | ok fn1 =>
        simp only [process, hurl, hfn, hb, hd, tagPhase, htag, if_true]
        split <;> rfl
    · rw [Bool.not_eq_true] at hb
      simp only [process, hurl, hfn, hb, tagPhase, htag, if_true, Bool.false_eq_true,
        if_false]
      split <;> rfl
  · intro fn1 fs1 hb hd
    have hmem : fn1 ∈ fs1 := download_ok_mem env _ fn0 fn1 fs fs1 hd
    have hcont : fs1.contains fn1 = true := by
      simpa using hmem
    refine ⟨?_, not_mem_removeFile fs1 fn1⟩
    simp only [process, hurl, hfn, hb, hd, tagPhase, htag, hcont, if_true]
  · intro hb
    have hp : process p env dir raw true force_dl lat lon fs
        = tagPhase p env true raw.event_date (lat, lon) fn0 false fs := by
      simp only [process, hurl, hfn, if_true, hb, Bool.false_eq_true, if_false]
    constructor
    · intro hc
      rw [hp]
      refine ⟨?_, not_mem_removeFile fs fn0⟩
      simp only [tagPhase, htag, hc, if_true]
    · intro hc
      rw [hp]
      simp only [tagPhase, htag, hc, if_true, Bool.false_eq_true, if_false]

/-- C6 amended witness: a failing exiftool run on a just-downloaded image
deletes the written file and surfaces the tagging failure, and the same
holds on the skip-download path when the on-disk file carries the exact
computed name. -/
theorem claim6_witness :
    (process imageProcessor envTagFail "d" imgActivity true false (some 1) (some (-1)) []
      = (.error PErr.tagFailed,
         removeFile ["d/20200102030405Zpic.jpg"] "d/20200102030405Zpic.jpg")
    ∧ "d/20200102030405Zpic.jpg"
        ∉ removeFile ["d/20200102030405Zpic.jpg"] "d/20200102030405Zpic.jpg")
    ∧ process imageProcessor envTagFail "d" imgActivity true false (some 1) (some (-1))
        ["d/20200102030405Zpic.jpg"]
      = (.error PErr.tagFailed,
         removeFile ["d/20200102030405Zpic.jpg"] "d/20200102030405Zpic.jpg") := by
  refine ⟨(claim6_tag_failure_deletes_file imageProcessor envTagFail "d" imgActivity false
    (some 1) (some (-1)) [] "d/20200102030405Zpic.jpg" PErr.tagFailed
    (by decide) (by decide) (by decide)).2.1
    "d/20200102030405Zpic.jpg" ["d/20200102030405Zpic.jpg"] (by decide) (by decide), ?_⟩
  exact (((claim6_tag_failure_deletes_file imageProcessor envTagFail "d" imgActivity false
    (some 1) (some (-1)) ["d/20200102030405Zpic.jpg"] "d/20200102030405Zpic.jpg"
    PErr.tagFailed (by decide) (by decide) (by decide)).2.2 (by decide)).1 (by decide)).1

/-! ### Claims C3, C4: the metadata-sync loop -/

/-- The pages the pagination loop requests are consecutive from its
starting page, up to and including the first short page. -/
theorem saveMetadataGo_requested (student_id : String) (pages : List (List Activity)) :
    ∀ (page : Nat) (db : DBState) (s n t : Nat) (req : List Nat),
      (saveMetadataGo student_id pages page db s n t req).requested
        = req ++ List.range' page (firstShortPage pages + 1) := by
  induction pages with
  | nil =>
    intro page db s n t req
    simp [saveMetadataGo, firstShortPage, List.range']
  | cons b r ih =>
    intro page db s n t req
    by_cases hb : b.length < 25
    · simp [saveMetadataGo, firstShortPage, hb, List.range']
    · simp only [saveMetadataGo, firstShortPage, hb, if_false]
      rw [ih]
      simp [List.range', List.append_assoc]

/-- The loop's total counter accumulates the lengths of every batch it
received, the terminal short batch included. -/
theorem saveMetadataGo_total (student_id : String) (pages : List (List Activity)) :
    ∀ (page : Nat) (db : DBState) (s n t : Nat) (req : List Nat),
      (saveMetadataGo student_id pages page db s n t req).result_count
        = t + ((pages.take (firstShortPage pages + 1)).map List.length).sum := by
  induction pages with
  | nil =>
    intro page db s n t req
    simp [saveMetadataGo, firstShortPage]
  | cons b r ih =>
    intro page db s n t req
    by_cases hb : b.length < 25
    · simp [saveMetadataGo, firstShortPage, hb]
    · simp only [saveMetadataGo, firstShortPage, hb, if_false]
      rw [ih]
      simp [List.take, List.sum_cons]
      omega

/-- The page at index `firstShortPage` really is short. -/
theorem firstShortPage_short (pages : List (List Activity)) :
    (fetchPage pages (firstShortPage pages)).length < 25 := by
  induction pages with
  | nil => simp [fetchPage, firstShortPage]
  | cons b r ih =>
    by_cases hb : b.length < 25
    · simp [firstShortPage, hb, fetchPage]
    · simpa [firstShortPage, hb, fetchPage] using ih

/-- No page before `firstShortPage` is short. -/
theorem firstShortPage_min (pages : List (List Activity)) :
    ∀ i, i < firstShortPage pages → ¬ (fetchPage pages i).length < 25 := by
  induction pages with
  | nil =>
    intro i hi
    simp [firstShortPage] at hi
  | cons b r ih =>
    intro i hi
    by_cases hb : b.length < 25
    · simp only [firstShortPage, hb, if_true] at hi
      omega
    · simp only [firstShortPage, hb, if_false] at hi
      cases i with
      | zero => simpa [fetchPage] using hb
      | succ j =>
        simpa [fetchPage] using ih j (by omega)

/-- C3: `save_metadata` requests pages `0, 1, 2, …` in unit increments and
stops exactly at the first page whose size is strictly below the requested
page size 25 — so it requests precisely `List.range (k+1)` where `k` is
the first short page's index; that page is short, and every earlier
(requested-and-continued) page was not short. -/
theorem claim3_pagination_termination (student_id : String) (pages : List (List Activity))
    (db : DBState) :
    (save_metadata student_id pages db).requested
      = List.range (firstShortPage pages + 1)
    ∧ (fetchPage pages (firstShortPage pages)).length < 25
    ∧ (∀ i, i < firstShortPage pages → ¬ (fetchPage pages i).length < 25) := by
  refine ⟨?_, firstShortPage_short pages, firstShortPage_min pages⟩
  rw [save_metadata, saveMetadataGo_requested]
  simp [List.range_eq_range']

/-- C3 witness: on a feed with one full page of 25 and then a page of one,
the loop requests pages 0 and 1; the empty page after a short feed
terminates, and the full page 0 was not short (so it caused another
request). -/
theorem claim3_witness :
    (save_metadata "s" pages0 db0).requested = List.range (firstShortPage pages0 + 1)
    ∧ (fetchPage pages0 (firstShortPage pages0)).length < 25
    ∧ ¬ (fetchPage pages0 0).length < 25 := by
  refine ⟨(claim3_pagination_termination "s" pages0 db0).1,
          (claim3_pagination_termination "s" pages0 db0).2.1,
          (claim3_pagination_termination "s" pages0 db0).2.2 0 (by decide)⟩

/-- C4: an activity whose `video_info` is present with
`transcoding_status ≠ "complete"` leaves the store untouched, bumps the
skip counter by one, and leaves the added counter alone; and the
total-seen counter of a whole run counts every activity of every returned
batch, the skipped ones included. -/
theorem claim4_incomplete_video_skipped (student_id : String) (db : DBState)
    (skip_count new_count : Nat) (a : Activity) (vi : VideoInfo)
    (hvi : a.video_info = some vi) (hst : vi.transcoding_status ≠ "complete") :
    smStep student_id (db, skip_count, new_count) a = (db, skip_count + 1, new_count)
    ∧ (∀ pages db0A, (save_metadata student_id pages db0A).result_count
        = ((pages.take (firstShortPage pages + 1)).map List.length).sum) := by
  constructor
  · simp [smStep, hvi, hst]
  · intro pages db0A
    rw [save_metadata, saveMetadataGo_total]
    simp

/-- C4 witness: the fixture activity with a `"processing"` video bumps
only the skip counter, and the fixture run's total equals the summed batch
lengths. -/
theorem claim4_witness :
    smStep "s" (db0, 0, 0) vidPendingActivity = (db0, 1, 0)
    ∧ (save_metadata "s" pages0 db0).result_count
        = ((pages0.take (firstShortPage pages0 + 1)).map List.length).sum := by
  have h := claim4_incomplete_video_skipped "s" db0 0 0 vidPendingActivity
    ({ transcoding_status := "processing",
       downloadable_url := some "https://cdn/v/abc-1/hd.mp4" }) rfl (by decide)
  exact ⟨h.1, h.2 pages0 db0⟩

/-! ### Claim C2: idempotent insertion -/

/-- C2: inserting an activity with a fresh identifier returns
"newly inserted"; re-inserting any activity with the same identifier
returns "not newly inserted", changes nothing in the store (no update),
and leaves exactly one row for the identifier, still carrying the first
insertion's payload. -/
theorem claim2_insert_idempotent (db : DBState) (sid sid2 : String) (e e2 : Activity)
    (hfresh : countRows db e.object_id = 0) (hid : e2.object_id = e.object_id) :
    (DB_insert_activity db sid e).2 = true
    ∧ (DB_insert_activity (DB_insert_activity db sid e).1 sid2 e2).2 = false
    ∧ (DB_insert_activity (DB_insert_activity db sid e).1 sid2 e2).1
        = (DB_insert_activity db sid e).1
    ∧ countRows (DB_insert_activity (DB_insert_activity db sid e).1 sid2 e2).1
        e.object_id = 1
    ∧ lookupRow (DB_insert_activity (DB_insert_activity db sid e).1 sid2 e2).1
        e.object_id = some e := by
  have hnone : ∀ r ∈ db.activities, ¬ (r.id = e.object_id) := by
    intro r hr
    have h0 : db.activities.countP (fun r => decide (r.id = e.object_id)) = 0 := hfresh
    have := List.countP_eq_zero.mp h0 r hr
    simpa using this
  have hany : db.activities.any (fun r => decide (r.id = e.object_id)) = false := by
    rw [List.any_eq_false]
    intro r hr
    simpa using hnone r hr
  have h1 : DB_insert_activity db sid e
      = ({ db with activities := db.activities ++
            [{ id := e.object_id, student_id := sid, event_date := e.event_date,
               action_type := e.action_type, json := e, processed := false }] }, true) := by
    simp [DB_insert_activity, insertActivitySQL, hany]
  have hany2 : (db.activities ++
      [({ id := e.object_id, student_id := sid, event_date := e.event_date,
          action_type := e.action_type, json := e, processed := false } : ActivityRow)]).any
        (fun r => decide (r.id = e2.object_id)) = true := by
    rw [List.any_append]
    simp [hid]
  have h2 : DB_insert_activity (DB_insert_activity db sid e).1 sid2 e2
      = ((DB_insert_activity db sid e).1, false) := by
    rw [h1]
    simp [DB_insert_activity, insertActivitySQL, hany2]
  refine ⟨by rw [h1], by rw [h2], by rw [h2], ?_, ?_⟩
  · rw [h2, h1]
    simp only [countRows, List.countP_append]
    have hc0 : db.activities.countP (fun r => decide (r.id = e.object_id)) = 0 := hfresh
    rw [hc0]
    simp
  · rw [h2, h1]
    simp only [lookupRow]
    have hf : db.activities.find? (fun r => decide (r.id = e.object_id)) = none := by
      rw [List.find?_eq_none]
      intro r hr
      simpa using hnone r hr
    rw [List.find?_append, hf]
    simp

/-- C2 witness: on an empty store, inserting the bare fixture activity
reports a new row, re-inserting a same-identifier variant reports none and
leaves the single original row and payload intact. -/
theorem claim2_witness :
    (DB_insert_activity db0 "s" bareActivity).2 = true
    ∧ (DB_insert_activity (DB_insert_activity db0 "s" bareActivity).1 "s"
        ({ bareActivity with action_type := "changed" })).2 = false
    ∧ countRows (DB_insert_activity (DB_insert_activity db0 "s" bareActivity).1 "s"
        ({ bareActivity with action_type := "changed" })).1 bareActivity.object_id = 1
    ∧ lookupRow (DB_insert_activity (DB_insert_activity db0 "s" bareActivity).1 "s"
        ({ bareActivity with action_type := "changed" })).1 bareActivity.object_id
      = some bareActivity := by
  have h := claim2_insert_idempotent db0 "s" "s" bareActivity
    ({ bareActivity with action_type := "changed" }) (by decide) rfl
  exact ⟨h.1, h.2.1, h.2.2.2.1, h.2.2.2.2⟩

/-! ### Claim C10: stored tokens are never overwritten -/

/-- C10: when a truthy token is already stored for the login, the whole
auth prologue of `dl_metadata` either leaves the store exactly as it was
(the only `.ok` outcome is the unchanged store, even under `force_login`
with a fresh interactive token) or fails fatally; it never writes. -/
theorem claim10_stored_token_frame (db : DBState) (login t : String)
    (headless force_login : Bool) (freshToken : String)
    (hsel : DB_select_cookie db login = some t) (ht : t ≠ "") :
    dl_metadata_auth db login headless force_login freshToken = .ok db
    ∨ dl_metadata_auth db login headless force_login freshToken
        = .error PErr.authRequired := by
  have hstored : pyTruthyStr (DB_select_cookie db login) = true := by
    simp [hsel, pyTruthyStr, ht]
  unfold dl_metadata_auth
  cases hcE : clientInit (DB_select_cookie db login) headless force_login freshToken with
  | error e =>
    right
    have he : e = PErr.authRequired := by
      unfold clientInit at hcE
      split at hcE
      · simp at hcE
      · split at hcE
        · exact (Except.error.inj hcE).symm
        · simp at hcE
    rw [he] at hcE
    simp [hcE]
  | ok tok =>
    left
    simp [hcE, hstored]

/-- C10 witness: a store holding cookie `tok123` for login `user` is
returned unchanged by the auth prologue even with `force_login` set and a
fresh token available. -/
theorem claim10_witness :
    dl_metadata_auth dbWithCookie "user" false true "fresh" = .ok dbWithCookie := by
  have h := claim10_stored_token_frame dbWithCookie "user" "tok123" false true "fresh"
    rfl (by decide)
  rcases h with h | h
  · exact h
  · exact absurd h (by decide)

end BWDL
